import Mathlib

/-!
# Verification of the mapillary-js touch-gesture core

Shallow embedding of `src/viewer/TouchService.ts` and the wheel-zoom
computation of `ScrollZoomHandler` from this repository, together with
proofs of the specification's claims about them.

Modelling conventions:
* JavaScript numbers carried by touch coordinates are modelled as `ℚ`;
  the one square root in the pinch geometry (`Math.sqrt`) is modelled
  with `Real.sqrt`, so the `distance`/`distanceChange` fields of a pinch
  descriptor are `ℝ`.
* A JavaScript field that the code may leave `undefined` (and that then
  flows into arithmetic, yielding `NaN`) is modelled as an `Option ℚ`
  that is `none` exactly in the `undefined`/`NaN` cases.
* The RxJS pipeline of `TouchService` is synchronous: every emission of
  a derived stream happens while one raw DOM touch occurrence is being
  dispatched.  It is modelled as a state machine advanced by one raw
  occurrence at a time; per-occurrence emissions of the derived streams
  are recorded in an `Emits` record.  RxJS 5 `scan` keeps one
  accumulator per subscription, and the inner observables created by
  `mergeMap`/`switchMap` subscribe afresh when a gesture window opens,
  so each window's fold starts from the seed of the `scan`.
-/

/-- The kind of a raw DOM touch occurrence: which of the four raw
streams (`touchstart$`, `touchmove$`, `touchend$`, `touchcancel$`,
lines 172-175 of `TouchService.ts`) carries it. -/
inductive TouchKind where
  | touchstart
  | touchmove
  | touchend
  | touchcancel
deriving DecidableEq

/-- One physical contact as reported by the platform (the DOM `Touch`
interface used by `TouchService.ts`): identifier and position in the
client, page and screen coordinate spaces. -/
structure Touch where
  identifier : ℕ
  clientX : ℚ
  clientY : ℚ
  pageX : ℚ
  pageY : ℚ
  screenX : ℚ
  screenY : ℚ
deriving DecidableEq

/-- An all-zero contact, used only as the `getD` fallback when the
model indexes into a touch list whose length the surrounding stream
filter has already constrained (the TypeScript indexes
`te.touches[0]`/`te.touches[1]` unguarded behind those filters). -/
def Touch.zero : Touch := ⟨0, 0, 0, 0, 0, 0, 0⟩

/-- A raw touch occurrence (the DOM `TouchEvent` as consumed by
`TouchService.ts`): its kind plus the `touches` and `targetTouches`
lists whose lengths drive every classification filter. -/
structure TouchEvent where
  etype : TouchKind
  touches : List Touch
  targetTouches : List Touch
deriving DecidableEq

/-- The `TouchMove` value class (lines 11-45 of `TouchService.ts`): a
contact plus per-axis movement.  The zero-argument constructor sets
`movementX = movementY = 0` and leaves every other field `undefined`,
so all fields are `Option`s here; `none` models `undefined` (and the
`NaN` that `undefined` produces under subtraction). -/
structure TouchMove where
  movementX : Option ℚ
  movementY : Option ℚ
  identifier : Option ℕ
  clientX : Option ℚ
  clientY : Option ℚ
  pageX : Option ℚ
  pageY : Option ℚ
  screenX : Option ℚ
  screenY : Option ℚ
deriving DecidableEq

/-- `new TouchMove()` with no argument: movement fields zero, all
position fields `undefined` (lines 26-32 of `TouchService.ts`).  This
is the seed of the `_singleTouchMove$` scan (line 184). -/
def TouchMove.seed : TouchMove :=
  ⟨some 0, some 0, none, none, none, none, none, none, none⟩

/-- `new TouchMove(touch)` with a contact: movement fields zero, the
remaining fields copied from the contact (lines 26-44). -/
def TouchMove.ofTouch (t : Touch) : TouchMove :=
  ⟨some 0, some 0, some t.identifier, some t.clientX, some t.clientY,
   some t.pageX, some t.pageY, some t.screenX, some t.screenY⟩

/-- The pinch descriptor `IPinch` (lines 47-125 of `TouchService.ts`).
`distance` and `distanceChange` involve `Math.sqrt` and live in `ℝ`;
all purely linear fields stay in `ℚ`. -/
structure IPinch where
  changeX : ℚ
  changeY : ℚ
  clientX : ℚ
  clientY : ℚ
  distance : ℝ
  distanceChange : ℝ
  distanceX : ℚ
  distanceY : ℚ
  originalEvent : Option TouchEvent
  pageX : ℚ
  pageY : ℚ
  screenX : ℚ
  screenY : ℚ
  touch1 : Option Touch
  touch2 : Option Touch

/-- The all-zero seed descriptor of the `_pinch$` scan (lines 293-309
of `TouchService.ts`): every numeric field `0`, the event and touch
references `null`. -/
noncomputable def pinchSeed : IPinch :=
  ⟨0, 0, 0, 0, 0, 0, 0, 0, none, 0, 0, 0, 0, none, none⟩

/-- Membership in `Observable.merge(touchStart$, touchEnd$,
touchCancel$)` (lines 206-210, 216-220 and 268-272 of
`TouchService.ts`): every raw occurrence that is not a move. -/
def isTouchesChangedEvent (e : TouchEvent) : Bool :=
  match e.etype with
  | .touchstart => true
  | .touchmove => false
  | .touchend => true
  | .touchcancel => true

/-- The filter feeding the single-touch fold (lines 186-190):
a move occurrence with exactly one active and one target-scoped
contact. -/
def singleMoveFilter (e : TouchEvent) : Bool :=
  e.etype == .touchmove && e.touches.length == 1 && e.targetTouches.length == 1

/-- The filter feeding the pinch fold (lines 311-315): a move
occurrence with exactly two active and two target-scoped contacts. -/
def pinchMoveFilter (e : TouchEvent) : Bool :=
  e.etype == .touchmove && e.touches.length == 2 && e.targetTouches.length == 2

/-- `singleTouchStart$` (lines 206-214): a start/end/cancel occurrence
with exactly one active and one target-scoped contact. -/
def singleTouchStartFilter (e : TouchEvent) : Bool :=
  isTouchesChangedEvent e && e.touches.length == 1 && e.targetTouches.length == 1

/-- `multipleTouchStart$` (lines 216-224): a start/end/cancel
occurrence with at least one active contact. -/
def multipleTouchStartFilter (e : TouchEvent) : Bool :=
  isTouchesChangedEvent e && decide (1 ≤ e.touches.length)

/-- `touchStop$` (lines 226-233): an end/cancel occurrence that leaves
zero active contacts. -/
def touchStopFilter (e : TouchEvent) : Bool :=
  (e.etype == .touchend || e.etype == .touchcancel) && e.touches.length == 0

/-- `_pinchStart$` (lines 274-278): a start/end/cancel occurrence with
exactly two active and two target-scoped contacts. -/
def pinchStartFilter (e : TouchEvent) : Bool :=
  isTouchesChangedEvent e && e.touches.length == 2 && e.targetTouches.length == 2

/-- `_pinchEnd$` (lines 280-284): a start/end/cancel occurrence where
either count deviates from exactly two. -/
def pinchEndFilter (e : TouchEvent) : Bool :=
  isTouchesChangedEvent e && !(e.touches.length == 2 && e.targetTouches.length == 2)

/-- The single-touch fold operation (lines 191-203 of
`TouchService.ts`): wrap `te.touches[0]` in a fresh `TouchMove` and set
its movement to the page-space difference from the previous tracked
state.  When the previous state's page position is `undefined` (the
scan seed), the JavaScript subtraction yields `NaN`, modelled as
`none`. -/
def touchMoveOperation (te : TouchEvent) (previous : TouchMove) : TouchMove :=
  let touch := te.touches.headD Touch.zero
  let current := TouchMove.ofTouch touch
  { current with
    movementX := previous.pageX.map (fun p => touch.pageX - p)
    movementY := previous.pageY.map (fun p => touch.pageY - p) }

/-- The pinch fold operation (lines 316-366 of `TouchService.ts`):
bounding-box center of the two contacts in client space, translated
into page/screen space by the first touch's offsets, per-axis and
Euclidean inter-contact distances, and frame-to-frame changes against
the previous descriptor. -/
noncomputable def pinchOperation (te : TouchEvent) (previous : IPinch) : IPinch :=
  let touch1 := te.touches.headD Touch.zero
  let touch2 := te.touches.getD 1 Touch.zero
  let minX := min touch1.clientX touch2.clientX
  let maxX := max touch1.clientX touch2.clientX
  let minY := min touch1.clientY touch2.clientY
  let maxY := max touch1.clientY touch2.clientY
  let centerClientX := minX + (maxX - minX) / 2
  let centerClientY := minY + (maxY - minY) / 2
  let centerPageX := centerClientX + touch1.pageX - touch1.clientX
  let centerPageY := centerClientY + touch1.pageY - touch1.clientY
  let centerScreenX := centerClientX + touch1.screenX - touch1.clientX
  let centerScreenY := centerClientY + touch1.screenY - touch1.clientY
  let distanceX := |touch1.clientX - touch2.clientX|
  let distanceY := |touch1.clientY - touch2.clientY|
  let distance : ℝ := Real.sqrt ((distanceX : ℝ) * (distanceX : ℝ) + (distanceY : ℝ) * (distanceY : ℝ))
  let distanceChange : ℝ := distance - previous.distance
  let changeX := distanceX - previous.distanceX
  let changeY := distanceY - previous.distanceY
  { changeX := changeX
    changeY := changeY
    clientX := centerClientX
    clientY := centerClientY
    distance := distance
    distanceChange := distanceChange
    distanceX := distanceX
    distanceY := distanceY
    originalEvent := some te
    pageX := centerPageX
    pageY := centerPageY
    screenX := centerScreenX
    screenY := centerScreenY
    touch1 := some touch1
    touch2 := some touch2 }

/-- The synchronous pipeline state of one `TouchService` between two
raw occurrences.

* `singleOpen`: a Single window is open — the inner observables created
  at the last `singleTouchStart$` occurrence by the
  `mergeMap`/`switchMap` at lines 235-244, 246-254 and 256-266 are
  still subscribed.  A window opens on a `singleTouchStartFilter`
  occurrence and is torn down by `takeUntil`/`first()` on the next
  `multipleTouchStartFilter` or `touchStopFilter` occurrence.
* `singleCount`: how many values the current window's subscription of
  `_singleTouchMove$` has produced.  The `take(1)` start stream fires
  at the first (lines 235-244), and the `skip(1)` move stream from the
  second onward (lines 256-266).
* `singleFold`: the accumulator of the current window's `scan` over
  `_singleTouchMoveOperation$` (lines 179-184); RxJS 5 `scan` keeps one
  accumulator per subscription, so it is re-seeded when a window opens.
* `pinchOpen`/`pinchCount`/`pinchFold`: the same for the Pair window
  (`switchMap` at lines 370-376 over the scan at lines 288-309). -/
structure TMState where
  singleOpen : Bool
  singleCount : ℕ
  singleFold : TouchMove
  pinchOpen : Bool
  pinchCount : ℕ
  pinchFold : IPinch

/-- The emissions of the derived streams of `TouchService` while one
raw occurrence is dispatched: `singleTouchMoveStart$`,
`singleTouchMove$` (the public getter for `_singleTouch$`),
`singleTouchMoveEnd$`, `pinchStart$`, `pinchEnd$` and `pinch$` (the
public getter for `_pinchChange$`). -/
structure Emits where
  singleStart : Option TouchMove
  singleMove : Option TouchMove
  singleEnd : Option TouchEvent
  pinchStart : Option TouchEvent
  pinchEnd : Option TouchEvent
  pinchChange : Option IPinch

/-- No emission on any derived stream. -/
def noEmits : Emits := ⟨none, none, none, none, none, none⟩

/-- The state of a freshly constructed `TouchService`: no window open,
both scan accumulators at their seeds. -/
noncomputable def tmInit : TMState :=
  ⟨false, 0, TouchMove.seed, false, 0, pinchSeed⟩

/-- Dispatch one raw occurrence through the `TouchService` pipeline.

A move occurrence feeds exactly one of the two folds, selected by the
filters at lines 186-190 and 311-315; the fold advances only while the
corresponding window's subscriptions exist.  A start/end/cancel
occurrence closes and/or opens windows: any such occurrence with at
least one active contact triggers `multipleTouchStart$` and any
end/cancel leaving zero contacts triggers `touchStop$`, either of which
tears down an open Single window (emitting it on
`singleTouchMoveEnd$`); a `singleTouchStartFilter` occurrence (re)opens
the Single window with fresh per-subscription scan state; the Pair
window is open afterwards exactly when the occurrence satisfies
`pinchStartFilter`, again with fresh scan state, and the occurrence is
emitted on the public `pinchStart$`/`pinchEnd$` streams according to
their filters alone. -/
noncomputable def step (s : TMState) (e : TouchEvent) : TMState × Emits :=
  if e.etype = .touchmove then
    if singleMoveFilter e then
      if s.singleOpen then
        let f := touchMoveOperation e s.singleFold
        ({ s with singleFold := f, singleCount := s.singleCount + 1 },
         { noEmits with
            singleStart := if s.singleCount = 0 then some f else none
            singleMove := if 1 ≤ s.singleCount then some f else none })
      else (s, noEmits)
    else if pinchMoveFilter e then
      if s.pinchOpen then
        let f := pinchOperation e s.pinchFold
        ({ s with pinchFold := f, pinchCount := s.pinchCount + 1 },
         { noEmits with pinchChange := if 1 ≤ s.pinchCount then some f else none })
      else (s, noEmits)
    else (s, noEmits)
  else
    ({ singleOpen :=
         if singleTouchStartFilter e then true
         else if multipleTouchStartFilter e || touchStopFilter e then false
         else s.singleOpen
       singleCount := if singleTouchStartFilter e then 0 else s.singleCount
       singleFold := if singleTouchStartFilter e then TouchMove.seed else s.singleFold
       pinchOpen := pinchStartFilter e
       pinchCount := 0
       pinchFold := pinchSeed },
     { noEmits with
        singleEnd :=
          if s.singleOpen && (multipleTouchStartFilter e || touchStopFilter e) then some e else none
        pinchStart := if pinchStartFilter e then some e else none
        pinchEnd := if pinchEndFilter e then some e else none })

/-- The per-occurrence emissions along a whole sequence of raw
occurrences. -/
noncomputable def runEmits : TMState → List TouchEvent → List Emits
  | _, [] => []
  | s, e :: rest => (step s e).2 :: runEmits (step s e).1 rest

/-- The pipeline state after a whole sequence of raw occurrences. -/
noncomputable def runState : TMState → List TouchEvent → TMState
  | s, [] => s
  | s, e :: rest => runState (step s e).1 rest

/-- The wheel-delta normalization of `ScrollZoomHandler._enable`
(lines 70-75 of the handler source): the raw `deltaY` is multiplied by
40 when `deltaMode` is `1` (lines), by 800 when it is `2` (pages), and
passed through otherwise (`0`, pixels). -/
def deltaNormalized (deltaMode : ℕ) (deltaY : ℚ) : ℚ :=
  if deltaMode = 1 then 40 * deltaY
  else if deltaMode = 2 then 800 * deltaY
  else deltaY

/-- The zoom magnitude `-3 * deltaY / canvasHeight` (line 77 of the
handler source) that `ScrollZoomHandler` forwards to
`stateService.zoomIn` together with the reference point. -/
def scrollZoom (deltaMode : ℕ) (deltaY : ℚ) (canvasHeight : ℚ) : ℚ :=
  -3 * deltaNormalized deltaMode deltaY / canvasHeight

/-- A state with an open Single window whose fold is still at its
seed (used to instantiate the machine theorems). -/
noncomputable def stateSingleOpen : TMState :=
  ⟨true, 0, TouchMove.seed, false, 0, pinchSeed⟩

/-- A state with an open Single window whose fold has already produced
one value. -/
noncomputable def stateSingleRunning : TMState :=
  ⟨true, 1, TouchMove.seed, false, 0, pinchSeed⟩

/-- A single-contact move occurrence. -/
def eventMoveOne : TouchEvent := ⟨.touchmove, [Touch.zero], [Touch.zero]⟩

/-- The contact `B = (clientX 10, clientY 0)` of the specification's
pinch example. -/
def touchB : Touch := ⟨1, 10, 0, 10, 0, 10, 0⟩

/-- A second finger touching down: a start occurrence reporting two
active and two target-scoped contacts. -/
def eventStartTwo : TouchEvent :=
  ⟨.touchstart, [Touch.zero, touchB], [Touch.zero, touchB]⟩

/-- A pair move occurrence with contacts `A = (0,0)` and
`B = (10,0)`. -/
def eventPinchAB : TouchEvent :=
  ⟨.touchmove, [Touch.zero, touchB], [Touch.zero, touchB]⟩

lemma pinchOp_clientX (t1 t2 : Touch) (l : List Touch) (prev : IPinch) :
    (pinchOperation ⟨.touchmove, [t1, t2], l⟩ prev).clientX
      = min t1.clientX t2.clientX
        + (max t1.clientX t2.clientX - min t1.clientX t2.clientX) / 2 := rfl

lemma pinchOp_clientY (t1 t2 : Touch) (l : List Touch) (prev : IPinch) :
    (pinchOperation ⟨.touchmove, [t1, t2], l⟩ prev).clientY
      = min t1.clientY t2.clientY
        + (max t1.clientY t2.clientY - min t1.clientY t2.clientY) / 2 := rfl

lemma pinchOp_pageX (t1 t2 : Touch) (l : List Touch) (prev : IPinch) :
    (pinchOperation ⟨.touchmove, [t1, t2], l⟩ prev).pageX
      = (pinchOperation ⟨.touchmove, [t1, t2], l⟩ prev).clientX + t1.pageX - t1.clientX := rfl

lemma pinchOp_pageY (t1 t2 : Touch) (l : List Touch) (prev : IPinch) :
    (pinchOperation ⟨.touchmove, [t1, t2], l⟩ prev).pageY
      = (pinchOperation ⟨.touchmove, [t1, t2], l⟩ prev).clientY + t1.pageY - t1.clientY := rfl

lemma pinchOp_screenX (t1 t2 : Touch) (l : List Touch) (prev : IPinch) :
    (pinchOperation ⟨.touchmove, [t1, t2], l⟩ prev).screenX
      = (pinchOperation ⟨.touchmove, [t1, t2], l⟩ prev).clientX + t1.screenX - t1.clientX := rfl

lemma pinchOp_screenY (t1 t2 : Touch) (l : List Touch) (prev : IPinch) :
    (pinchOperation ⟨.touchmove, [t1, t2], l⟩ prev).screenY
      = (pinchOperation ⟨.touchmove, [t1, t2], l⟩ prev).clientY + t1.screenY - t1.clientY := rfl

lemma pinchOp_distanceX (t1 t2 : Touch) (l : List Touch) (prev : IPinch) :
    (pinchOperation ⟨.touchmove, [t1, t2], l⟩ prev).distanceX
      = |t1.clientX - t2.clientX| := rfl

lemma pinchOp_distanceY (t1 t2 : Touch) (l : List Touch) (prev : IPinch) :
    (pinchOperation ⟨.touchmove, [t1, t2], l⟩ prev).distanceY
      = |t1.clientY - t2.clientY| := rfl

lemma pinchOp_distance (t1 t2 : Touch) (l : List Touch) (prev : IPinch) :
    (pinchOperation ⟨.touchmove, [t1, t2], l⟩ prev).distance
      = Real.sqrt (((|t1.clientX - t2.clientX| : ℚ) : ℝ) * ((|t1.clientX - t2.clientX| : ℚ) : ℝ)
          + ((|t1.clientY - t2.clientY| : ℚ) : ℝ) * ((|t1.clientY - t2.clientY| : ℚ) : ℝ)) := rfl

lemma pinchOp_distanceChange (te : TouchEvent) (prev : IPinch) :
    (pinchOperation te prev).distanceChange
      = (pinchOperation te prev).distance - prev.distance := rfl

lemma pinchOp_changeX (te : TouchEvent) (prev : IPinch) :
    (pinchOperation te prev).changeX
      = (pinchOperation te prev).distanceX - prev.distanceX := rfl

lemma pinchOp_changeY (te : TouchEvent) (prev : IPinch) :
    (pinchOperation te prev).changeY
      = (pinchOperation te prev).distanceY - prev.distanceY := rfl

lemma bbox_center_eq_midpoint (a b : ℚ) :
    min a b + (max a b - min a b) / 2 = (a + b) / 2 := by
  rcases le_total a b with h | h
  · rw [min_eq_left h, max_eq_right h]; ring
  · rw [min_eq_right h, max_eq_left h]; ring

lemma sqrt_hundred : Real.sqrt 100 = 10 := by
  rw [show (100 : ℝ) = 10 ^ 2 by norm_num]
  exact Real.sqrt_sq (by norm_num)

lemma singleMoveFilter_etype {e : TouchEvent} (h : singleMoveFilter e = true) :
    e.etype = .touchmove := by
  simp only [singleMoveFilter, Bool.and_eq_true, beq_iff_eq] at h
  exact h.1.1

lemma step_emits_excl (s : TMState) (e : TouchEvent) :
    (step s e).2.singleMove = none ∨ (step s e).2.pinchChange = none := by
  unfold step
  split
  · split
    · split
      · right; rfl
      · left; rfl
    · split
      · split
        · left; rfl
        · left; rfl
      · left; rfl
  · left; rfl

lemma runEmits_excl :
    ∀ (trace : List TouchEvent) (s : TMState) (i : ℕ),
      ((runEmits s trace).getD i noEmits).singleMove = none ∨
      ((runEmits s trace).getD i noEmits).pinchChange = none
  | [], _, i => by left; rfl
  | e :: rest, s, 0 => by simpa [runEmits] using step_emits_excl s e
  | e :: rest, s, i + 1 => by
      simpa [runEmits] using runEmits_excl rest (step s e).1 i

/-- C1: for every sequence of raw occurrences, at most one of the
single-touch move stream and the pinch change stream emits while any
single raw occurrence is dispatched (hence strictly between any two
consecutive raw occurrences), because the filter feeding the
single-touch fold (exactly one active and one target-scoped contact)
and the filter feeding the pinch fold (exactly two of each) can never
both hold of the same occurrence. -/
theorem c1_single_pinch_mutual_exclusion :
    (∀ e : TouchEvent, (singleMoveFilter e && pinchMoveFilter e) = false) ∧
    (∀ (s : TMState) (trace : List TouchEvent) (i : ℕ),
      ((runEmits s trace).getD i noEmits).singleMove = none ∨
      ((runEmits s trace).getD i noEmits).pinchChange = none) := by
  constructor
  · intro e
    simp only [singleMoveFilter, pinchMoveFilter, Bool.and_eq_false_iff,
      Bool.and_eq_true, beq_iff_eq]
    by_cases h : e.touches.length = 1
    · right; simp [h]
    · left; left; simp [h]
  · intro s trace i
    exact runEmits_excl trace s i

/-- C4: the first value a session's fold produces is never delivered on
the single-touch move stream or the pinch change stream: while the
window's emission count is zero a move dispatch emits nothing on
`singleTouchMove$`/`pinch$`, and the first single-touch value is
delivered exactly once, on the start stream (`take(1)`), never again
once the count is positive. -/
theorem c4_seed_skipped :
    ∀ (s : TMState) (e : TouchEvent),
      (s.singleCount = 0 → (step s e).2.singleMove = none) ∧
      (s.pinchCount = 0 → (step s e).2.pinchChange = none) ∧
      (1 ≤ s.singleCount → (step s e).2.singleStart = none) ∧
      (s.singleOpen = true → s.singleCount = 0 → singleMoveFilter e = true →
        (step s e).2.singleStart = some (touchMoveOperation e s.singleFold)) := by
  intro s e
  refine ⟨?_, ?_, ?_, ?_⟩
  · intro h
    unfold step
    repeat' split <;> (try simp_all [noEmits])
  · intro h
    unfold step
    repeat' split <;> (try simp_all [noEmits])
  · intro h
    unfold step
    repeat' split <;> (try simp_all [noEmits]) <;> (try omega)
  · intro h1 h2 h3
    have he := singleMoveFilter_etype h3
    simp [step, he, h1, h2, h3]

/-- C4 witness: concrete dispatches showing each hypothesis is
satisfiable. -/
theorem c4_seed_skipped_witness :
    (step stateSingleOpen eventMoveOne).2.singleMove = none ∧
    (step stateSingleOpen eventMoveOne).2.pinchChange = none ∧
    (step stateSingleRunning eventMoveOne).2.singleStart = none ∧
    (step stateSingleOpen eventMoveOne).2.singleStart
      = some (touchMoveOperation eventMoveOne stateSingleOpen.singleFold) :=
  ⟨(c4_seed_skipped stateSingleOpen eventMoveOne).1 rfl,
   (c4_seed_skipped stateSingleOpen eventMoveOne).2.1 rfl,
   (c4_seed_skipped stateSingleRunning eventMoveOne).2.2.1 (by decide),
   (c4_seed_skipped stateSingleOpen eventMoveOne).2.2.2 rfl rfl (by decide)⟩

/-- C6: a raw start occurrence reporting exactly two active and two
target-scoped contacts while a Single window is open both closes that
window — the single-touch end stream emits the occurrence — and opens
the Pair window, with the pinch-start stream emitting the same
occurrence. -/
theorem c6_single_closes_pair_opens :
    ∀ (s : TMState) (e : TouchEvent),
      s.singleOpen = true → e.etype = .touchstart →
      e.touches.length = 2 → e.targetTouches.length = 2 →
      (step s e).2.singleEnd = some e ∧ (step s e).2.pinchStart = some e ∧
      (step s e).1.singleOpen = false ∧ (step s e).1.pinchOpen = true := by
  intro s e h1 h2 h3 h4
  have hm : multipleTouchStartFilter e = true := by
    simp [multipleTouchStartFilter, isTouchesChangedEvent, h2, h3]
  have hp : pinchStartFilter e = true := by
    simp [pinchStartFilter, isTouchesChangedEvent, h2, h3, h4]
  have hs : singleTouchStartFilter e = false := by
    simp [singleTouchStartFilter, isTouchesChangedEvent, h2, h3]
  simp [step, h1, h2, hm, hp, hs]

/-- C6 witness: a second finger touching down while a single-contact
session is tracked. -/
theorem c6_single_closes_pair_opens_witness :
    (step stateSingleOpen eventStartTwo).2.singleEnd = some eventStartTwo ∧
    (step stateSingleOpen eventStartTwo).2.pinchStart = some eventStartTwo ∧
    (step stateSingleOpen eventStartTwo).1.singleOpen = false ∧
    (step stateSingleOpen eventStartTwo).1.pinchOpen = true :=
  c6_single_closes_pair_opens stateSingleOpen eventStartTwo rfl rfl (by decide) (by decide)

/-- C8: the wheel zoom interpreter multiplies `deltaY` by 40 in line
mode (`deltaMode = 1`), by 800 in page mode (`deltaMode = 2`), passes
it through in pixel mode (`deltaMode = 0`), and forwards the zoom
magnitude `-3 * normalizedDeltaY / canvasHeight`; for `deltaY = 3` in
line mode with `canvasHeight = 600` the normalized delta is 120 and the
zoom is `-0.6 = -(3/5)`. -/
theorem c8_wheel_zoom :
    (∀ d : ℚ, deltaNormalized 1 d = 40 * d) ∧
    (∀ d : ℚ, deltaNormalized 2 d = 800 * d) ∧
    (∀ d : ℚ, deltaNormalized 0 d = d) ∧
    (∀ (m : ℕ) (d h : ℚ), scrollZoom m d h = -3 * deltaNormalized m d / h) ∧
    deltaNormalized 1 3 = 120 ∧ scrollZoom 1 3 600 = -(3 / 5) := by
  refine ⟨fun d => rfl, fun d => rfl, fun d => rfl, fun m d h => rfl,
    by norm_num [deltaNormalized], by norm_num [scrollZoom, deltaNormalized]⟩

/-- C2: for every pair move occurrence with contacts `t1` and `t2`,
the emitted descriptor's client-space center is the per-axis midpoint
of the bounding box of the two contacts, the page- and screen-space
centers are that client center translated by the first touch's
client-to-page and client-to-screen offsets, `distanceX`/`distanceY`
are the per-axis absolute differences of the client coordinates, and
`distance` is the Euclidean norm of `(distanceX, distanceY)`; for
`A = (0,0)` and `B = (10,0)` this gives `distance = 10`,
`distanceX = 10`, `distanceY = 0` and center `(5, 0)`. -/
theorem c2_pinch_descriptor_geometry :
    (∀ (t1 t2 : Touch) (l : List Touch) (prev : IPinch),
      (pinchOperation ⟨.touchmove, [t1, t2], l⟩ prev).clientX = (t1.clientX + t2.clientX) / 2 ∧
      (pinchOperation ⟨.touchmove, [t1, t2], l⟩ prev).clientY = (t1.clientY + t2.clientY) / 2 ∧
      (pinchOperation ⟨.touchmove, [t1, t2], l⟩ prev).pageX
        = (pinchOperation ⟨.touchmove, [t1, t2], l⟩ prev).clientX + t1.pageX - t1.clientX ∧
      (pinchOperation ⟨.touchmove, [t1, t2], l⟩ prev).pageY
        = (pinchOperation ⟨.touchmove, [t1, t2], l⟩ prev).clientY + t1.pageY - t1.clientY ∧
      (pinchOperation ⟨.touchmove, [t1, t2], l⟩ prev).screenX
        = (pinchOperation ⟨.touchmove, [t1, t2], l⟩ prev).clientX + t1.screenX - t1.clientX ∧
      (pinchOperation ⟨.touchmove, [t1, t2], l⟩ prev).screenY
        = (pinchOperation ⟨.touchmove, [t1, t2], l⟩ prev).clientY + t1.screenY - t1.clientY ∧
      (pinchOperation ⟨.touchmove, [t1, t2], l⟩ prev).distanceX = |t1.clientX - t2.clientX| ∧
      (pinchOperation ⟨.touchmove, [t1, t2], l⟩ prev).distanceY = |t1.clientY - t2.clientY| ∧
      (pinchOperation ⟨.touchmove, [t1, t2], l⟩ prev).distance
        = Real.sqrt
            (((pinchOperation ⟨.touchmove, [t1, t2], l⟩ prev).distanceX : ℝ) ^ 2
              + ((pinchOperation ⟨.touchmove, [t1, t2], l⟩ prev).distanceY : ℝ) ^ 2)) ∧
    (∀ prev : IPinch,
      (pinchOperation eventPinchAB prev).distance = 10 ∧
      (pinchOperation eventPinchAB prev).distanceX = 10 ∧
      (pinchOperation eventPinchAB prev).distanceY = 0 ∧
      (pinchOperation eventPinchAB prev).clientX = 5 ∧
      (pinchOperation eventPinchAB prev).clientY = 0) := by
  constructor
  · intro t1 t2 l prev
    refine ⟨?_, ?_, rfl, rfl, rfl, rfl, rfl, rfl, ?_⟩
    · rw [pinchOp_clientX, bbox_center_eq_midpoint]
    · rw [pinchOp_clientY, bbox_center_eq_midpoint]
    · rw [pinchOp_distance, pinchOp_distanceX, pinchOp_distanceY]
      congr 1
      ring
  · intro prev
    refine ⟨?_, ?_, ?_, ?_, ?_⟩
    · show (pinchOperation ⟨.touchmove, [Touch.zero, touchB], [Touch.zero, touchB]⟩ prev).distance = 10
      rw [pinchOp_distance]
      norm_num [Touch.zero, touchB, sqrt_hundred]
    · show (pinchOperation ⟨.touchmove, [Touch.zero, touchB], [Touch.zero, touchB]⟩ prev).distanceX = 10
      rw [pinchOp_distanceX]
      norm_num [Touch.zero, touchB]
    · show (pinchOperation ⟨.touchmove, [Touch.zero, touchB], [Touch.zero, touchB]⟩ prev).distanceY = 0
      rw [pinchOp_distanceY]
      norm_num [Touch.zero, touchB]
    · show (pinchOperation ⟨.touchmove, [Touch.zero, touchB], [Touch.zero, touchB]⟩ prev).clientX = 5
      rw [pinchOp_clientX, bbox_center_eq_midpoint]
      norm_num [Touch.zero, touchB]
    · show (pinchOperation ⟨.touchmove, [Touch.zero, touchB], [Touch.zero, touchB]⟩ prev).clientY = 0
      rw [pinchOp_clientY, bbox_center_eq_midpoint]
      norm_num [Touch.zero, touchB]

/-- C10: swapping the two contacts of a pair move occurrence leaves the
computed descriptor's client-space center, `distanceX`, `distanceY`,
`distance` and `distanceChange` unchanged (the page- and screen-space
centers are anchored to the first touch and are not claimed
invariant). -/
theorem c10_swap_contacts_invariance :
    ∀ (t1 t2 : Touch) (l l' : List Touch) (prev : IPinch),
      (pinchOperation ⟨.touchmove, [t1, t2], l⟩ prev).clientX
        = (pinchOperation ⟨.touchmove, [t2, t1], l'⟩ prev).clientX ∧
      (pinchOperation ⟨.touchmove, [t1, t2], l⟩ prev).clientY
        = (pinchOperation ⟨.touchmove, [t2, t1], l'⟩ prev).clientY ∧
      (pinchOperation ⟨.touchmove, [t1, t2], l⟩ prev).distanceX
        = (pinchOperation ⟨.touchmove, [t2, t1], l'⟩ prev).distanceX ∧
      (pinchOperation ⟨.touchmove, [t1, t2], l⟩ prev).distanceY
        = (pinchOperation ⟨.touchmove, [t2, t1], l'⟩ prev).distanceY ∧
      (pinchOperation ⟨.touchmove, [t1, t2], l⟩ prev).distance
        = (pinchOperation ⟨.touchmove, [t2, t1], l'⟩ prev).distance ∧
      (pinchOperation ⟨.touchmove, [t1, t2], l⟩ prev).distanceChange
        = (pinchOperation ⟨.touchmove, [t2, t1], l'⟩ prev).distanceChange := by
  intro t1 t2 l l' prev
  have hd : (pinchOperation ⟨.touchmove, [t1, t2], l⟩ prev).distance
      = (pinchOperation ⟨.touchmove, [t2, t1], l'⟩ prev).distance := by
    rw [pinchOp_distance, pinchOp_distance,
      abs_sub_comm t2.clientX t1.clientX, abs_sub_comm t2.clientY t1.clientY]
  refine ⟨?_, ?_, ?_, ?_, hd, ?_⟩
  · rw [pinchOp_clientX, pinchOp_clientX,
      min_comm t2.clientX t1.clientX, max_comm t2.clientX t1.clientX]
  · rw [pinchOp_clientY, pinchOp_clientY,
      min_comm t2.clientY t1.clientY, max_comm t2.clientY t1.clientY]
  · rw [pinchOp_distanceX, pinchOp_distanceX, abs_sub_comm t2.clientX t1.clientX]
  · rw [pinchOp_distanceY, pinchOp_distanceY, abs_sub_comm t2.clientY t1.clientY]
  · rw [pinchOp_distanceChange, pinchOp_distanceChange, hd]

lemma step_pinch_inv {s : TMState} (e : TouchEvent)
    (h : s.pinchCount = 0 → s.pinchFold = pinchSeed) :
    (step s e).1.pinchCount = 0 → (step s e).1.pinchFold = pinchSeed := by
  unfold step
  repeat' split <;> (try simp_all [noEmits])

lemma run_pinch_inv :
    ∀ (trace : List TouchEvent) (s : TMState),
      (s.pinchCount = 0 → s.pinchFold = pinchSeed) →
      ((runState s trace).pinchCount = 0 → (runState s trace).pinchFold = pinchSeed)
  | [], _, h => h
  | e :: rest, s, h => run_pinch_inv rest (step s e).1 (step_pinch_inv e h)

/-- C5: whenever a pinch session's scan has produced no value yet its
accumulator is the all-zero seed descriptor, so the session's very
first descriptor is computed against the all-zero baseline, making its
`distanceChange` equal to its raw `distance` and its `changeX`/`changeY`
equal to its raw `distanceX`/`distanceY`; every descriptor's
`distanceChange` is its `distance` minus the previous descriptor's
`distance`. -/
theorem c5_first_descriptor_zero_baseline :
    (∀ te : TouchEvent,
      (pinchOperation te pinchSeed).distanceChange = (pinchOperation te pinchSeed).distance ∧
      (pinchOperation te pinchSeed).changeX = (pinchOperation te pinchSeed).distanceX ∧
      (pinchOperation te pinchSeed).changeY = (pinchOperation te pinchSeed).distanceY) ∧
    (∀ (te : TouchEvent) (prev : IPinch),
      (pinchOperation te prev).distanceChange
        = (pinchOperation te prev).distance - prev.distance) ∧
    (∀ trace : List TouchEvent,
      (runState tmInit trace).pinchCount = 0 →
        (runState tmInit trace).pinchFold = pinchSeed) := by
  refine ⟨?_, pinchOp_distanceChange, ?_⟩
  · intro te
    refine ⟨?_, ?_, ?_⟩
    · rw [pinchOp_distanceChange]
      show _ - (0 : ℝ) = _
      rw [sub_zero]
    · rw [pinchOp_changeX]
      show _ - (0 : ℚ) = _
      rw [sub_zero]
    · rw [pinchOp_changeY]
      show _ - (0 : ℚ) = _
      rw [sub_zero]
  · intro trace
    exact run_pinch_inv trace tmInit (fun _ => rfl)

/-- C5 witness: the empty trace leaves the pinch scan at its seed with
count zero. -/
theorem c5_first_descriptor_zero_baseline_witness :
    (runState tmInit []).pinchCount = 0 ∧ (runState tmInit []).pinchFold = pinchSeed :=
  ⟨rfl, c5_first_descriptor_zero_baseline.2.2 [] rfl⟩

/-- `distinctUntilChanged` over the values pushed into the activation
`BehaviorSubject` (lines 165-170 of `TouchService.ts`): given the last
delivered value, the notifications produced by a list of subsequently
set values. -/
def distinctEmissions : Bool → List Bool → List Bool
  | _, [] => []
  | last, v :: rest =>
      if v == last then distinctEmissions last rest
      else v :: distinctEmissions v rest

/-- The value `new BehaviorSubject<boolean>(false)` starts with
(line 165): the activation flag defaults to `false`. -/
def activeInitial : Bool := false

/-- What an observer of `_active$` subscribed at construction receives
after a list of set values: the replayed current value followed by the
distinct changes (`distinctUntilChanged().publishReplay(1).refCount()`,
lines 167-170). -/
def activeEmissions (sets : List Bool) : List Bool :=
  activeInitial :: distinctEmissions activeInitial sets

lemma distinct_same_skip :
    ∀ (n : ℕ) (last : Bool) (rest : List Bool),
      distinctEmissions last (List.replicate n last ++ rest) = distinctEmissions last rest
  | 0, _, _ => rfl
  | n + 1, last, rest => by
      simp only [List.replicate_succ, List.cons_append, distinctEmissions,
        beq_self_eq_true, if_true]
      exact distinct_same_skip n last rest

lemma distinct_getLastD :
    ∀ (sets : List Bool) (c : Bool),
      (distinctEmissions c sets).getLastD c = sets.getLastD c
  | [], _ => rfl
  | v :: rest, c => by
      by_cases h : (v == c) = true
      · have hv : v = c := by simpa using h
        simp only [distinctEmissions, h, if_true]
        rw [distinct_getLastD rest c, List.getLastD_cons, hv]
      · have hv : (v == c) = false := by simpa using h
        have hstep : distinctEmissions c (v :: rest) = v :: distinctEmissions v rest := by
          simp [distinctEmissions, hv]
        rw [hstep, List.getLastD_cons, List.getLastD_cons]
        exact distinct_getLastD rest v

/-- C9: the activation flag defaults to `false`; setting it repeatedly
to its current value produces no notification on the
distinct-until-changed observation stream; toggling it
`false → true → false` produces exactly two notifications; and the
stream replays the latest value (the last set value, or the initial
`false`) to a new observer. -/
theorem c9_activation_gate :
    activeInitial = false ∧
    (∀ (n : ℕ) (last : Bool) (rest : List Bool),
      distinctEmissions last (List.replicate n last ++ rest) = distinctEmissions last rest) ∧
    distinctEmissions activeInitial [true, false] = [true, false] ∧
    (distinctEmissions activeInitial [true, false]).length = 2 ∧
    (∀ sets : List Bool,
      (activeEmissions sets).getLastD false = (activeInitial :: sets).getLastD false) := by
  refine ⟨rfl, distinct_same_skip, by decide, by decide, ?_⟩
  intro sets
  show (activeInitial :: distinctEmissions activeInitial sets).getLastD false
      = (activeInitial :: sets).getLastD false
  rw [List.getLastD_cons, List.getLastD_cons, distinct_getLastD]

/-- The five classes the specification assigns to a raw occurrence. -/
inductive TouchClass where
  | single
  | pair
  | stop
  | multi
  | ignored
deriving DecidableEq

/-- Fall-through classification of a raw occurrence by the first
matching stream filter, in the order Single, Pair, Stop, Multi-start,
ignored.  The raw filters themselves overlap (`multipleTouchStart$`
passes every start/end/cancel occurrence with at least one active
contact, including Single- and Pair-qualifying ones), so only this
prioritized reading yields an exactly-one classification. -/
def classify (e : TouchEvent) : TouchClass :=
  if singleTouchStartFilter e then .single
  else if pinchStartFilter e then .pair
  else if touchStopFilter e then .stop
  else if multipleTouchStartFilter e then .multi
  else .ignored

/-- A one-finger touchstart: a Single-qualifying occurrence. -/
def eventStartOne : TouchEvent := ⟨.touchstart, [Touch.zero], [Touch.zero]⟩

lemma single_not_pair {e : TouchEvent} (h : singleTouchStartFilter e = true) :
    pinchStartFilter e = false := by
  cases hp : pinchStartFilter e
  · rfl
  · exfalso
    simp only [singleTouchStartFilter, Bool.and_eq_true, beq_iff_eq] at h
    simp only [pinchStartFilter, Bool.and_eq_true, beq_iff_eq] at hp
    obtain ⟨⟨-, hl⟩, -⟩ := h
    obtain ⟨⟨-, hl2⟩, -⟩ := hp
    omega

lemma single_not_stop {e : TouchEvent} (h : singleTouchStartFilter e = true) :
    touchStopFilter e = false := by
  cases hs : touchStopFilter e
  · rfl
  · exfalso
    simp only [singleTouchStartFilter, Bool.and_eq_true, beq_iff_eq] at h
    simp only [touchStopFilter, Bool.and_eq_true, beq_iff_eq] at hs
    obtain ⟨⟨-, hl⟩, -⟩ := h
    obtain ⟨-, hl2⟩ := hs
    omega

lemma pair_not_stop {e : TouchEvent} (h : pinchStartFilter e = true) :
    touchStopFilter e = false := by
  cases hs : touchStopFilter e
  · rfl
  · exfalso
    simp only [pinchStartFilter, Bool.and_eq_true, beq_iff_eq] at h
    simp only [touchStopFilter, Bool.and_eq_true, beq_iff_eq] at hs
    obtain ⟨⟨-, hl⟩, -⟩ := h
    obtain ⟨-, hl2⟩ := hs
    omega

lemma stop_not_multi {e : TouchEvent} (h : touchStopFilter e = true) :
    multipleTouchStartFilter e = false := by
  cases hm : multipleTouchStartFilter e
  · rfl
  · exfalso
    simp only [touchStopFilter, Bool.and_eq_true, beq_iff_eq] at h
    simp only [multipleTouchStartFilter, Bool.and_eq_true, decide_eq_true_eq] at hm
    obtain ⟨-, hl⟩ := h
    obtain ⟨-, hl2⟩ := hm
    omega

/-- C7 counterexample: a one-finger touchstart is Single-qualifying yet
also passes the code's Multi-start filter, and a two-finger touchstart
is Pair-qualifying yet also passes the Multi-start filter, so an
occurrence can satisfy two of the raw classification conditions at
once and the Multi-start condition is not restricted to occurrences
that fail to qualify as Single. -/
theorem c7_counterexample :
    singleTouchStartFilter eventStartOne = true ∧
    multipleTouchStartFilter eventStartOne = true ∧
    pinchStartFilter eventStartTwo = true ∧
    multipleTouchStartFilter eventStartTwo = true ∧
    ((multipleTouchStartFilter eventStartOne = true →
        singleTouchStartFilter eventStartOne = false) = False) :=
  ⟨by decide, by decide, by decide, by decide, eq_false (by decide)⟩

/-- C7 (amended): classification by first matching filter in the order
Single, Pair, Stop, Multi-start, ignored assigns exactly one class to
every raw occurrence, the Single, Pair and Stop classes are assigned
exactly on their filters, and the Multi-start class is assigned exactly
to occurrences that pass the raw Multi-start filter (one or more active
contacts on a start/end/cancel occurrence) while qualifying neither as
Single nor as Pair. -/
theorem c7_classification :
    ∀ e : TouchEvent,
      (classify e = .single ↔ singleTouchStartFilter e = true) ∧
      (classify e = .pair ↔ pinchStartFilter e = true) ∧
      (classify e = .stop ↔ touchStopFilter e = true) ∧
      (classify e = .multi ↔
        (multipleTouchStartFilter e = true ∧ singleTouchStartFilter e = false ∧
          pinchStartFilter e = false)) ∧
      (classify e = .ignored ↔
        (singleTouchStartFilter e = false ∧ pinchStartFilter e = false ∧
          touchStopFilter e = false ∧ multipleTouchStartFilter e = false)) := by
  intro e
  cases h1 : singleTouchStartFilter e <;>
  cases h2 : pinchStartFilter e <;>
  cases h3 : touchStopFilter e <;>
  cases h4 : multipleTouchStartFilter e <;>
  simp_all [classify, single_not_pair, single_not_stop, pair_not_stop, stop_not_multi]

/-- The single contact of the specification's single-touch example at
page position `(100, 100)`. -/
def touchPage100 : Touch := ⟨0, 100, 100, 100, 100, 100, 100⟩

/-- The same contact after moving to page position `(105, 98)`. -/
def touchPage105 : Touch := ⟨0, 105, 98, 105, 98, 105, 98⟩

/-- The one-finger touchstart opening the example session. -/
def c3Start : TouchEvent := ⟨.touchstart, [touchPage100], [touchPage100]⟩

/-- The session's first move occurrence, at page `(100, 100)`. -/
def c3Move1 : TouchEvent := ⟨.touchmove, [touchPage100], [touchPage100]⟩

/-- The session's second move occurrence, at page `(105, 98)`. -/
def c3Move2 : TouchEvent := ⟨.touchmove, [touchPage105], [touchPage105]⟩

/-- The specification's single-contact session: a one-finger
touchstart followed by two one-finger moves, the first at page
`(100, 100)` and the second at page `(105, 98)`. -/
def c3Trace : List TouchEvent := [c3Start, c3Move1, c3Move2]

lemma touchMoveOp_movementX (te : TouchEvent) (prev : TouchMove) :
    (touchMoveOperation te prev).movementX
      = prev.pageX.map (fun p => (te.touches.headD Touch.zero).pageX - p) := rfl

lemma touchMoveOp_movementY (te : TouchEvent) (prev : TouchMove) :
    (touchMoveOperation te prev).movementY
      = prev.pageY.map (fun p => (te.touches.headD Touch.zero).pageY - p) := rfl

/-- C3 counterexample: in the session whose first move occurrence is at
page `(100, 100)`, the start event delivered for that occurrence does
not carry movement `(0, 0)` — its movement is computed against the
constructor-default seed whose page position is `undefined`, so it is
`NaN` (modelled `none`), not `0`. -/
theorem c3_counterexample :
    (((runEmits tmInit c3Trace).getD 1 noEmits).singleStart.map TouchMove.movementX
        = some (some (0 : ℚ))) = False ∧
    ((runEmits tmInit c3Trace).getD 1 noEmits).singleStart.map TouchMove.movementX
      = some none ∧
    ((runEmits tmInit c3Trace).getD 1 noEmits).singleStart.map TouchMove.movementY
      = some none :=
  ⟨eq_false (by decide), by decide, by decide⟩

/-- C3 (amended): a tracked movement's `movementX`/`movementY` are the
per-axis difference between the current occurrence's lone contact's
page position and the page position of the immediately preceding
tracked state whenever the latter is defined; in the session whose
first move occurrence is at page `(100, 100)`, that occurrence is the
start event and carries undefined (`NaN`) movement because the seed's
page position is `undefined`, and the second occurrence at page
`(105, 98)` emits on the move stream with movement `(5, -2)`. -/
theorem c3_movement_deltas :
    (∀ (te : TouchEvent) (prev : TouchMove) (px py : ℚ),
      prev.pageX = some px → prev.pageY = some py →
      (touchMoveOperation te prev).movementX
          = some ((te.touches.headD Touch.zero).pageX - px) ∧
      (touchMoveOperation te prev).movementY
          = some ((te.touches.headD Touch.zero).pageY - py)) ∧
    ((runEmits tmInit c3Trace).getD 1 noEmits).singleStart.map TouchMove.movementX
      = some none ∧
    ((runEmits tmInit c3Trace).getD 2 noEmits).singleMove.map
        (fun t => (t.movementX, t.movementY)) = some (some 5, some (-2)) := by
  refine ⟨?_, by decide, ?_⟩
  · intro te prev px py hx hy
    constructor
    · rw [touchMoveOp_movementX, hx]
      rfl
    · rw [touchMoveOp_movementY, hy]
      rfl
  · have hrun : ((runEmits tmInit c3Trace).getD 2 noEmits).singleMove
        = some (touchMoveOperation c3Move2 (touchMoveOperation c3Move1 TouchMove.seed)) := rfl
    have hvalX : (touchMoveOperation c3Move2 (touchMoveOperation c3Move1 TouchMove.seed)).movementX
        = some (105 - 100) := rfl
    have hvalY : (touchMoveOperation c3Move2 (touchMoveOperation c3Move1 TouchMove.seed)).movementY
        = some (98 - 100) := rfl
    rw [hrun]
    simp only [Option.map_some']
    rw [hvalX, hvalY]
    norm_num

/-- C3 witness: the delta rule applied to a tracked state at page
`(100, 100)` and the occurrence at page `(105, 98)`. -/
theorem c3_movement_deltas_witness :
    (TouchMove.ofTouch touchPage100).pageX = some 100 ∧
    (TouchMove.ofTouch touchPage100).pageY = some 100 ∧
    (touchMoveOperation ⟨.touchmove, [touchPage105], [touchPage105]⟩
        (TouchMove.ofTouch touchPage100)).movementX = some (touchPage105.pageX - 100) ∧
    (touchMoveOperation ⟨.touchmove, [touchPage105], [touchPage105]⟩
        (TouchMove.ofTouch touchPage100)).movementY = some (touchPage105.pageY - 100) :=
  ⟨rfl, rfl,
   (c3_movement_deltas.1 ⟨.touchmove, [touchPage105], [touchPage105]⟩
      (TouchMove.ofTouch touchPage100) 100 100 rfl rfl).1,
   (c3_movement_deltas.1 ⟨.touchmove, [touchPage105], [touchPage105]⟩
      (TouchMove.ofTouch touchPage100) 100 100 rfl rfl).2⟩
